import Mathlib

/-!
Formal model of the request/response audit-logging subsystem of the
`linksdisplay` repository (Flask backend).

The Python sources embedded here:
  * `backend/services/error_service.py`  — `ErrorService.log_error`,
    `get_error_by_id`, `get_errors`, `get_error_statistics`,
    `delete_old_errors`;
  * `backend/middleware/request_logger.py` — `RequestLoggerMiddleware`
    (`after_request`, `teardown_appcontext`, `_should_skip_logging`,
    `_log_request_async`);
  * `backend/routes/errors.py` — the `/api/errors/cleanup` route;
  * `backend/models/error.py` — the `Error` row type.

Modelling conventions:
  * timestamps are integers (milliseconds); `timedelta(days=n)` becomes
    `n * 86400000`;
  * Python `str.lower`/`str.upper` are modelled for ASCII (all header
    names, HTTP methods and skip patterns involved are ASCII);
  * JSON values are the inductive `Json`; a Python `dict` is an
    insertion-ordered association list;
  * Python exceptions become `Except` values; a `try/except` block
    becomes a `match` on the `Except` result;
  * the database session is the explicit `Store`; a storage failure
    during commit is modelled by the `dbFails` flag.
-/

/-- ASCII lower-casing of one character, as `str.lower` acts on ASCII. -/
def asciiLower (c : Char) : Char :=
  if 'A' ≤ c ∧ c ≤ 'Z' then Char.ofNat (c.toNat + 32) else c

/-- ASCII upper-casing of one character, as `str.upper` acts on ASCII. -/
def asciiUpper (c : Char) : Char :=
  if 'a' ≤ c ∧ c ≤ 'z' then Char.ofNat (c.toNat - 32) else c

/-- Python `s.lower()` (ASCII fragment). -/
def pyLower (s : String) : String := String.mk (s.data.map asciiLower)

/-- Python `s.upper()` (ASCII fragment). -/
def pyUpper (s : String) : String := String.mk (s.data.map asciiUpper)

/-- Does the character list start with the given pattern? -/
def charsStartWith : List Char → List Char → Bool
  | [], _ => true
  | _ :: _, [] => false
  | p :: ps, c :: cs => (p == c) && charsStartWith ps cs

/-- Does `haystack` contain `needle` as a contiguous run?  Mirrors the
semantics of Python's `needle in haystack` on strings. -/
def charsContain (haystack needle : List Char) : Bool :=
  match haystack with
  | [] => needle.isEmpty
  | _ :: t => charsStartWith needle haystack || charsContain t needle

/-- Python `needle in haystack` for strings (substring test). -/
def strContains (haystack needle : String) : Bool :=
  charsContain haystack.data needle.data

/-- First-match association-list lookup: Python `dict[k]` /
`dict.get(k)` on our ordered-pair representation of a `dict`. -/
def alookup {α β : Type} [DecidableEq α] : List (α × β) → α → Option β
  | [], _ => none
  | (k, v) :: rest, k' => if k = k' then some v else alookup rest k'

/-- A JSON value, the shape of Python objects produced by
`request.get_json()` / `response.get_json()`.  Objects are
insertion-ordered association lists, as Python dicts are. -/
inductive Json where
  | null
  | bool (b : Bool)
  | num (n : Int)
  | str (s : String)
  | arr (elems : List Json)
  | obj (fields : List (String × Json))

/-- A row of the `errors` table (`backend/models/error.py`, class
`Error`).  Nullable columns are `Option`s; `error_message` is kept as a
JSON value because the interceptor stores whatever `dict.get` returned
(Python is dynamically typed), with plain strings wrapped in
`Json.str`. -/
structure ErrorRecord where
  id : Nat
  method : String
  endpoint : String
  status_code : Int
  request_data : Option Json
  request_params : Option (List (String × String))
  request_headers : Option (List (String × String))
  client_ip : Option String
  user_agent : Option String
  response_data : Option Json
  error_message : Option Json
  error_type : Option String
  session_id : Option String
  user_id : Option Int
  request_time : Int
  response_time : Option Int
  duration_ms : Option Int

/-- The persistent state behind `db.session` for the `errors` table:
the committed rows plus the next surrogate key. -/
structure Store where
  records : List ErrorRecord
  nextId : Nat

/-- The keyword arguments of `ErrorService.log_error`. -/
structure LogArgs where
  method : String
  endpoint : String
  status_code : Int
  request_data : Option Json
  request_params : Option (List (String × String))
  request_headers : Option (List (String × String))
  client_ip : Option String
  user_agent : Option String
  response_data : Option Json
  error_message : Option Json
  error_type : Option String
  session_id : Option String
  user_id : Option Int
  request_time : Option Int
  response_time : Option Int
  duration_ms : Option Int

/-- All-defaults argument pack: every optional keyword of `log_error`
left at its Python default `None`; the three required fields empty. -/
def LogArgs.base : LogArgs where
  method := ""
  endpoint := ""
  status_code := 0
  request_data := none
  request_params := none
  request_headers := none
  client_ip := none
  user_agent := none
  response_data := none
  error_message := none
  error_type := none
  session_id := none
  user_id := none
  request_time := none
  response_time := none
  duration_ms := none

/-- The exceptions `log_error` can raise (`backend/exceptions.py`). -/
inductive LogFailure where
  | validation (msg : String)
  | database (msg : String)

/-- Header sanitization, from `ErrorService.log_error` lines 74–80:

    sanitized_headers = None
    if request_headers:
        sanitized_headers = {
            k: v for k, v in request_headers.items()
            if k.lower() not in ['authorization', 'cookie', 'x-api-key']
        }

Note that an empty dict is falsy in Python, so a present-but-empty
headers map leaves `sanitized_headers = None`. -/
def sanitizeHeaders (request_headers : Option (List (String × String))) :
    Option (List (String × String)) :=
  match request_headers with
  | none => none
  | some hs =>
    if hs.isEmpty then none
    else some (hs.filter (fun kv =>
      !(["authorization", "cookie", "x-api-key"].contains (pyLower kv.1))))

/-- The row constructed by the `Error(...)` call inside
`ErrorService.log_error` (`error_service.py` lines 82–100): method
upper-cased, headers sanitized, `request_time` defaulting to
`datetime.utcnow()`, the id taken from the store's surrogate-key
counter. -/
def ErrorService.logRecord (st : Store) (now : Int) (a : LogArgs) :
    ErrorRecord :=
  { id := st.nextId
    method := pyUpper a.method
    endpoint := a.endpoint
    status_code := a.status_code
    request_data := a.request_data
    request_params := a.request_params
    request_headers := sanitizeHeaders a.request_headers
    client_ip := a.client_ip
    user_agent := a.user_agent
    response_data := a.response_data
    error_message := a.error_message
    error_type := a.error_type
    session_id := a.session_id
    user_id := a.user_id
    request_time := a.request_time.getD now
    response_time := a.response_time
    duration_ms := a.duration_ms }

/-- `ErrorService.log_error` (`error_service.py` lines 22–111).
`dbFails` simulates a storage failure at `db.session.commit()` (the
bare `except` turns it into a `DatabaseError` after rollback, so the
store is unchanged); `now` is `datetime.utcnow()`.  Python's
`not method or not endpoint or not status_code` is truthiness: empty
strings and the integer `0` fail validation, nothing else does. -/
def ErrorService.log_error (dbFails : Bool) (st : Store) (now : Int)
    (a : LogArgs) : Except LogFailure (Store × ErrorRecord) :=
  if a.method = "" ∨ a.endpoint = "" ∨ a.status_code = 0 then
    .error (.validation "Method, endpoint, and status_code are required")
  else
    let r : ErrorRecord := ErrorService.logRecord st now a
    if dbFails then .error (.database "Failed to log error")
    else .ok ({ records := st.records ++ [r], nextId := st.nextId + 1 }, r)

/-- `ErrorService.get_error_by_id` (`Error.query.get`): primary-key
lookup. -/
def ErrorService.get_error_by_id (st : Store) (error_id : Nat) :
    Option ErrorRecord :=
  st.records.find? (fun r => r.id == error_id)

/-- `RequestLoggerMiddleware._log_request_async` (`request_logger.py`
lines 155–168): calls `ErrorService.log_error` inside `try/except`, so
any failure leaves the store untouched. -/
def RequestLoggerMiddleware.log_request_async (dbFails : Bool) (st : Store)
    (now : Int) (a : LogArgs) : Store :=
  match ErrorService.log_error dbFails st now a with
  | .ok (st2, _) => st2
  | .error _ => st

/-- Parse state of an HTTP body, as Flask/werkzeug expose it:
`notJson` — the content type does not declare JSON (`is_json` is
`False`); `malformed` — declared JSON but `get_json()` raises on it;
`parsed j` — declared JSON and parses to the value `j`. -/
inductive BodyKind where
  | notJson
  | malformed
  | parsed (j : Json)

/-- `request.is_json` / `response.is_json`: mimetype check only. -/
def BodyKind.is_json : BodyKind → Bool
  | .notJson => false
  | _ => true

/-- Python maps the JSON literal `null` to `None`; a parse result of
`null` is therefore indistinguishable from an absent value. -/
def pyJsonOpt : Json → Option Json
  | .null => none
  | j => some j

/-- `get_json()` on a body whose mimetype declares JSON (both hooks
guard the call with `is_json`): raises `BadRequest` when the body does
not parse. -/
def BodyKind.get_json : BodyKind → Except String (Option Json)
  | .notJson => .ok none
  | .malformed => .error "BadRequest: failed to decode JSON object"
  | .parsed j => .ok (pyJsonOpt j)

/-- The request attributes the middleware reads.  `endpoint` is the
already-resolved `request.endpoint or request.path` value; `args` is
the query string; `headers` the request headers. -/
structure RequestCtx where
  method : String
  endpoint : String
  body : BodyKind
  args : List (String × String)
  headers : List (String × String)
  remote_addr : Option String

/-- The response attributes the middleware reads. -/
structure HttpResponse where
  status_code : Int
  body : BodyKind

/-- Werkzeug header lookup (`request.headers.get`) is
case-insensitive. -/
def headerGet (headers : List (String × String)) (name : String) :
    Option String :=
  (headers.find? (fun kv => pyLower kv.1 == pyLower name)).map (fun kv => kv.2)

/-- `RequestLoggerMiddleware._should_skip_logging` (`request_logger.py`
lines 135–153): substring match of the skip patterns against the
lower-cased endpoint. -/
def RequestLoggerMiddleware.should_skip_logging (endpoint : String) : Bool :=
  ["static", "health", "favicon", "robots.txt"].any
    (fun pattern_ => strContains (pyLower endpoint) pattern_)

/-- The `status_code >= 400` classification block of `after_request`
(`request_logger.py` lines 69–83), yielding
`(response_data, error_message, error_type)`:

    if response.status_code >= 400:
        try:
            if response.is_json:
                response_data = response.get_json()
                error_message = response_data.get('message', 'Unknown error')
                error_type = 'HTTPError'
        except:
            error_message = f"HTTP {response.status_code}"
            error_type = 'HTTPError'

The `except` arm fires when `get_json()` raises (malformed declared
JSON) or when `.get` raises `AttributeError` (the parse produced `None`
or a non-dict); in the non-dict case `response_data` keeps the value it
was assigned before the exception.  A non-JSON mimetype enters neither
branch, so all three stay `None`. -/
def classifyResponse (status_code : Int) (body : BodyKind) :
    Option Json × Option Json × Option String :=
  if 400 ≤ status_code then
    match body with
    | .notJson => (none, none, none)
    | .malformed =>
      (none, some (.str ("HTTP " ++ toString status_code)), some "HTTPError")
    | .parsed j =>
      match pyJsonOpt j with
      | none =>
        (none, some (.str ("HTTP " ++ toString status_code)), some "HTTPError")
      | some (.obj fields) =>
        (some (.obj fields),
         some ((alookup fields "message").getD (.str "Unknown error")),
         some "HTTPError")
      | some j' =>
        (some j', some (.str ("HTTP " ++ toString status_code)),
         some "HTTPError")
  else (none, none, none)

/-- `RequestLoggerMiddleware.after_request` (`request_logger.py` lines
40–107).  `t0` is `g.request_start_time`/`g.request_start_datetime`
(one millisecond clock serves as both), `t1` is the current time.  The
whole body sits in `try/except Exception`; the only statement inside it
that can raise is `request.get_json()` (a malformed declared-JSON
request body), since the classification block and
`_log_request_async` catch their own exceptions — on a raise the hook
just prints and returns the response with the store untouched.  The
hook always returns the original `response` object. -/
def RequestLoggerMiddleware.after_request (dbFails : Bool) (st : Store)
    (t0 t1 : Int) (req : RequestCtx) (resp : HttpResponse) :
    HttpResponse × Store :=
  if RequestLoggerMiddleware.should_skip_logging req.endpoint then (resp, st)
  else
    match (if (req.method = "POST" ∨ req.method = "PUT" ∨ req.method = "PATCH")
              ∧ req.body.is_json = true
           then req.body.get_json else .ok none) with
    | .error _ => (resp, st)
    | .ok request_data =>
      let cls := classifyResponse resp.status_code resp.body
      (resp, RequestLoggerMiddleware.log_request_async dbFails st t1
        { method := req.method
          endpoint := req.endpoint
          status_code := resp.status_code
          request_data := request_data
          request_params := if req.args.isEmpty then none else some req.args
          request_headers := if req.headers.isEmpty then none else some req.headers
          client_ip := req.remote_addr
          user_agent := headerGet req.headers "User-Agent"
          response_data := cls.1
          error_message := cls.2.1
          error_type := cls.2.2
          session_id := none
          user_id := none
          request_time := some t0
          response_time := some t1
          duration_ms := some (t1 - t0) })

/-- The exception object handed to `teardown_appcontext`: its
`str(exception)` description and `type(exception).__name__`. -/
structure ExcInfo where
  message : String
  typeName : String

/-- `RequestLoggerMiddleware.teardown_appcontext` (`request_logger.py`
lines 109–133).  With no exception it does nothing.  With one it logs a
synthetic 500 record inside a bare `try/except: pass`; note there is no
skip-list check on this path.  The only raising statement is
`request.get_json()` on a malformed declared-JSON request body. -/
def RequestLoggerMiddleware.teardown_appcontext (dbFails : Bool) (st : Store)
    (t0 t1 : Int) (req : RequestCtx) (exception : Option ExcInfo) : Store :=
  match exception with
  | none => st
  | some e =>
    match (if req.body.is_json = true then req.body.get_json else .ok none) with
    | .error _ => st
    | .ok request_data =>
      RequestLoggerMiddleware.log_request_async dbFails st t1
        { method := req.method
          endpoint := req.endpoint
          status_code := 500
          request_data := request_data
          request_params := if req.args.isEmpty then none else some req.args
          request_headers := if req.headers.isEmpty then none else some req.headers
          client_ip := req.remote_addr
          user_agent := headerGet req.headers "User-Agent"
          response_data := none
          error_message := some (.str e.message)
          error_type := some e.typeName
          session_id := none
          user_id := none
          request_time := some t0
          response_time := some t1
          duration_ms := some (t1 - t0) }

/-- How one HTTP request ends: the handler produced a response, or it
aborted with an unhandled exception. -/
inductive Outcome where
  | normal (resp : HttpResponse)
  | exception (e : ExcInfo)

/-- Modelled from the spec: the framework's per-request hook wiring
(Flask itself, not part of `src/`).  Per §4.1/§6, a hook fires after a
response is finalized (`after_request`) and a distinct hook fires on an
unhandled exception that aborts normal response generation
(`teardown_appcontext` with the exception); on the normal path the
teardown hook runs with no exception and is a no-op. -/
def requestLifecycle (dbFails : Bool) (st : Store) (t0 t1 : Int)
    (req : RequestCtx) (o : Outcome) : Store :=
  match o with
  | .normal resp =>
    RequestLoggerMiddleware.teardown_appcontext dbFails
      (RequestLoggerMiddleware.after_request dbFails st t0 t1 req resp).2
      t0 t1 req none
  | .exception e =>
    RequestLoggerMiddleware.teardown_appcontext dbFails st t0 t1 req (some e)

/-- One `if <value>: query = query.filter(...)` step of `get_errors`
for a string-valued filter: Python truthiness skips `None` and the
empty string. -/
def strFilterStep (v : Option String) (p : String → ErrorRecord → Bool)
    (q : List ErrorRecord) : List ErrorRecord :=
  match v with
  | none => q
  | some s => if s = "" then q else q.filter (p s)

/-- The per-record predicate the corresponding `strFilterStep` applies
(true when the filter is skipped). -/
def strFilterPred (v : Option String) (p : String → ErrorRecord → Bool)
    (r : ErrorRecord) : Bool :=
  match v with
  | none => true
  | some s => if s = "" then true else p s r

/-- One `if <value>: query = query.filter(...)` step for an
integer-valued filter: truthiness skips `None` and `0`. -/
def intFilterStep (v : Option Int) (p : Int → ErrorRecord → Bool)
    (q : List ErrorRecord) : List ErrorRecord :=
  match v with
  | none => q
  | some n => if n = 0 then q else q.filter (p n)

/-- Predicate form of `intFilterStep`. -/
def intFilterPred (v : Option Int) (p : Int → ErrorRecord → Bool)
    (r : ErrorRecord) : Bool :=
  match v with
  | none => true
  | some n => if n = 0 then true else p n r

/-- One filter step for a datetime-valued filter: a `datetime` object
is always truthy, so the filter applies whenever the value is
present. -/
def dateFilterStep (v : Option Int) (p : Int → ErrorRecord → Bool)
    (q : List ErrorRecord) : List ErrorRecord :=
  match v with
  | none => q
  | some d => q.filter (p d)

/-- Predicate form of `dateFilterStep`. -/
def dateFilterPred (v : Option Int) (p : Int → ErrorRecord → Bool)
    (r : ErrorRecord) : Bool :=
  match v with
  | none => true
  | some d => p d r

/-- Descending `request_time` comparison handed to the sort, from
`query.order_by(desc(Error.request_time))`. -/
def byRequestTimeDesc (a b : ErrorRecord) : Prop :=
  b.request_time ≤ a.request_time

instance : DecidableRel byRequestTimeDesc :=
  fun a b => inferInstanceAs (Decidable (b.request_time ≤ a.request_time))

instance : IsTotal ErrorRecord byRequestTimeDesc :=
  ⟨fun a b => le_total b.request_time a.request_time⟩

instance : IsTrans ErrorRecord byRequestTimeDesc :=
  ⟨fun _ _ _ hab hbc => le_trans hbc hab⟩

/-- The dictionary `ErrorService.get_errors` returns. -/
structure GetErrorsResult where
  errors : List ErrorRecord
  total : Nat
  page : Int
  per_page : Int
  pages : Nat
  has_next : Bool
  has_prev : Bool

/-- The filter chain of `ErrorService.get_errors` (`error_service.py`
lines 162–177): the Python `if <kwarg>: query = query.filter(...)`
cascade, one step per keyword argument, in source order. -/
def ErrorService.getErrorsQuery (st : Store)
    (method endpoint : Option String) (status_code : Option Int)
    (error_type : Option String) (start_date end_date : Option Int) :
    List ErrorRecord :=
  let q := st.records
  let q := strFilterStep method (fun m r => decide (r.method = pyUpper m)) q
  let q := strFilterStep endpoint (fun e r => strContains r.endpoint e) q
  let q := intFilterStep status_code (fun c r => decide (r.status_code = c)) q
  let q := strFilterStep error_type (fun t r => decide (r.error_type = some t)) q
  let q := dateFilterStep start_date (fun d r => decide (d ≤ r.request_time)) q
  dateFilterStep end_date (fun d r => decide (r.request_time ≤ d)) q

/-- `ErrorService.get_errors` (`error_service.py` lines 132–200): the
filter chain (`getErrorsQuery`), then
`query.order_by(desc(Error.request_time))`, then
`query.paginate(page=page, per_page=per_page, error_out=False)`.
Flask-SQLAlchemy pagination with `error_out` false: an out-of-range
`page` (or non-positive `page`/`per_page`, which are clamped to 1
and 20) yields an empty item list instead of a 404;
`pages = ceil(total / per_page)`, `has_next = page < pages`,
`has_prev = page > 1`. -/
def ErrorService.get_errors (st : Store) (page per_page : Int)
    (method endpoint : Option String) (status_code : Option Int)
    (error_type : Option String) (start_date end_date : Option Int) :
    GetErrorsResult :=
  let q := ErrorService.getErrorsQuery st method endpoint status_code
    error_type start_date end_date
  let sorted := q.insertionSort byRequestTimeDesc
  let page' : Int := if page < 1 then 1 else page
  let per_page' : Int := if per_page < 1 then 20 else per_page
  let total := sorted.length
  let pages := (total + per_page'.toNat - 1) / per_page'.toNat
  { errors := (sorted.drop ((page' - 1) * per_page').toNat).take per_page'.toNat
    total := total
    page := page
    per_page := per_page
    pages := pages
    has_next := page' < (pages : Int)
    has_prev := 1 < page' }

/-- The conjunction of all six filter predicates: what it means for a
record to survive the whole `get_errors` filter chain. -/
def matchesFilters (method endpoint : Option String) (status_code : Option Int)
    (error_type : Option String) (start_date end_date : Option Int)
    (r : ErrorRecord) : Bool :=
  strFilterPred method (fun m r => decide (r.method = pyUpper m)) r
  && strFilterPred endpoint (fun e r => strContains r.endpoint e) r
  && intFilterPred status_code (fun c r => decide (r.status_code = c)) r
  && strFilterPred error_type (fun t r => decide (r.error_type = some t)) r
  && dateFilterPred start_date (fun d r => decide (d ≤ r.request_time)) r
  && dateFilterPred end_date (fun d r => decide (r.request_time ≤ d)) r

/-- The optional `request_time` range restriction shared by
`get_error_statistics`' aggregates (`error_service.py` lines 221–226). -/
def timeFilteredRecords (st : Store) (start_date end_date : Option Int) :
    List ErrorRecord :=
  let q := st.records
  let q := dateFilterStep start_date (fun d r => decide (d ≤ r.request_time)) q
  dateFilterStep end_date (fun d r => decide (r.request_time ≤ d)) q

/-- SQL `GROUP BY key` with `COUNT(id)`: one pair per distinct key
value, paired with how many records carry it. -/
def groupCounts {κ : Type} [DecidableEq κ] (key : ErrorRecord → κ)
    (l : List ErrorRecord) : List (κ × Nat) :=
  ((l.map key).dedup).map
    (fun k => (k, (l.filter (fun r => decide (key r = k))).length))

/-- Descending count comparison, from
`order_by(db.func.count(Error.id).desc())`. -/
def byCountDesc (a b : String × Nat) : Prop :=
  b.2 ≤ a.2

instance : DecidableRel byCountDesc :=
  fun a b => inferInstanceAs (Decidable (b.2 ≤ a.2))

instance : IsTotal (String × Nat) byCountDesc :=
  ⟨fun a b => le_total b.2 a.2⟩

instance : IsTrans (String × Nat) byCountDesc :=
  ⟨fun _ _ _ hab hbc => le_trans hbc hab⟩

/-- The dictionary `ErrorService.get_error_statistics` returns.  The
average is an exact rational: Python computes it in floating point, the
mathematical content is the same mean. -/
structure ErrorStatistics where
  total_requests : Nat
  status_code_counts : List (String × Nat)
  method_counts : List (String × Nat)
  top_endpoints : List (String × Nat)
  average_response_time_ms : Rat

/-- `ErrorService.get_error_statistics` (`error_service.py` lines
202–265).  All aggregates run over the same time-filtered set (the code
reuses `query.whereclause` for each `GROUP BY`).  `AVG(duration_ms)`
ignores NULL durations and is NULL when no non-NULL duration exists;
`float(avg_duration) if avg_duration else 0` then maps both NULL and
0.0 to 0. -/
def ErrorService.get_error_statistics (st : Store)
    (start_date end_date : Option Int) : ErrorStatistics :=
  let q := timeFilteredRecords st start_date end_date
  let error_counts := groupCounts (fun r => r.status_code) q
  let method_counts := groupCounts (fun r => r.method) q
  let endpoint_counts :=
    ((groupCounts (fun r => r.endpoint) q).insertionSort byCountDesc).take 10
  let durations : List Int := q.filterMap (fun r => r.duration_ms)
  { total_requests := q.length
    status_code_counts := error_counts.map (fun p => (toString p.1, p.2))
    method_counts := method_counts
    top_endpoints := endpoint_counts
    average_response_time_ms :=
      if durations.length = 0 then 0
      else ((durations.sum : Int) : Rat) / ((durations.length : Nat) : Rat) }

/-- Python `timedelta(days=days)` in our millisecond clock. -/
def daysToMs (days : Int) : Int := days * 86400000

/-- `ErrorService.delete_old_errors` (`error_service.py` lines
267–292): computes `cutoff = utcnow() - timedelta(days=days)`, deletes
every record with `request_time < cutoff`, returns the deleted count. -/
def ErrorService.delete_old_errors (st : Store) (now : Int) (days : Int) :
    Store × Nat :=
  let cutoff := now - daysToMs days
  let kept := st.records.filter (fun r => !(decide (r.request_time < cutoff)))
  let deleted_count :=
    (st.records.filter (fun r => decide (r.request_time < cutoff))).length
  ({ records := kept, nextId := st.nextId }, deleted_count)

/-- Outcome of the `/api/errors/cleanup` route: the success envelope
with `deleted_count`/`days_kept`, or an error response with its HTTP
status. -/
inductive CleanupResult where
  | ok (deleted_count : Nat) (days_kept : Int)
  | errorResponse (status : Int) (msg : String)

/-- The `cleanup_old_errors` route handler (`routes/errors.py` lines
152–179): rejects `days < 1` with a 400 before touching the store. -/
def cleanup_old_errors (st : Store) (now : Int) (days : Int) :
    CleanupResult × Store :=
  if days < 1 then (.errorResponse 400 "Days must be at least 1", st)
  else
    let res := ErrorService.delete_old_errors st now days
    (.ok res.2 days, res.1)

/-- A concrete audit row with the given key, method, endpoint, status,
request time and duration, all other nullable columns absent — used to
build concrete stores for evaluating the operations. -/
def mkRecord (i : Nat) (m ep : String) (sc : Int) (t : Int)
    (dur : Option Int) : ErrorRecord :=
  { id := i
    method := m
    endpoint := ep
    status_code := sc
    request_data := none
    request_params := none
    request_headers := none
    client_ip := none
    user_agent := none
    response_data := none
    error_message := none
    error_type := none
    session_id := none
    user_id := none
    request_time := t
    response_time := none
    duration_ms := dur }

/-! ### Helper lemmas -/

/-- Unfolding `List.isEmpty` into the equation with `[]`. -/
theorem list_isEmpty_eq_true {α : Type} (l : List α) :
    l.isEmpty = true ↔ l = [] := by
  cases l <;> simp [List.isEmpty]

/-- Membership in the sanitized header list. -/
theorem mem_sanitized_filter (hs : List (String × String))
    (kv : String × String) :
    (kv ∈ hs.filter (fun kv =>
        !(["authorization", "cookie", "x-api-key"].contains (pyLower kv.1))))
      ↔ kv ∈ hs
        ∧ pyLower kv.1 ∉ (["authorization", "cookie", "x-api-key"] : List String) := by
  simp [List.mem_filter]

/-- A nonempty header map survives the truthiness test, so
sanitization really filters. -/
theorem sanitizeHeaders_some (hs : List (String × String)) (hne : hs ≠ []) :
    sanitizeHeaders (some hs)
      = some (hs.filter (fun kv =>
          !(["authorization", "cookie", "x-api-key"].contains (pyLower kv.1)))) := by
  cases hs with
  | nil => exact absurd rfl hne
  | cons h t => rfl

/-- When validation passes and the commit succeeds, `log_error` appends
exactly the constructed row. -/
theorem log_error_ok (st : Store) (now : Int) (a : LogArgs)
    (hm : a.method ≠ "") (he : a.endpoint ≠ "") (hs : a.status_code ≠ 0) :
    ErrorService.log_error false st now a
      = .ok ({ records := st.records ++ [ErrorService.logRecord st now a]
               nextId := st.nextId + 1 }, ErrorService.logRecord st now a) := by
  unfold ErrorService.log_error
  rw [if_neg (by simp [hm, he, hs])]
  rfl

/-- A successful write through the swallowing wrapper appends the
constructed row. -/
theorem log_request_async_ok (st : Store) (now : Int) (a : LogArgs)
    (hm : a.method ≠ "") (he : a.endpoint ≠ "") (hs : a.status_code ≠ 0) :
    RequestLoggerMiddleware.log_request_async false st now a
      = { records := st.records ++ [ErrorService.logRecord st now a]
          nextId := st.nextId + 1 } := by
  unfold RequestLoggerMiddleware.log_request_async
  rw [log_error_ok st now a hm he hs]

/-! ### C1 -/

/-- C1 (confirmed): whatever the request, the response, the parse state
of the bodies and the outcome of the storage insert (`dbFails` covers a
failing insert), `after_request` returns the original response object
unchanged; no exception from the write path escapes the hook. -/
theorem after_request_returns_response_unchanged (dbFails : Bool) (st : Store)
    (t0 t1 : Int) (req : RequestCtx) (resp : HttpResponse) :
    (RequestLoggerMiddleware.after_request dbFails st t0 t1 req resp).1 = resp := by
  unfold RequestLoggerMiddleware.after_request
  split
  · rfl
  · split <;> rfl

/-! ### C2 -/

/-- C2 (counterexample): a 404 response whose body does not declare
JSON (for instance Flask's default HTML error page) leaves
`error_message` as `None` — the claimed fallback `"HTTP 404"` is never
produced on this path, because the `except` arm only fires when
`get_json()` raises on a body that declared JSON. -/
theorem classifyResponse_non_json_cex :
    (classifyResponse 404 BodyKind.notJson).2.1 = none
      ∧ some (Json.str "HTTP 404") ≠ ((none : Option Json)) :=
  ⟨rfl, fun h => Option.noConfusion h⟩

/-- C2 (corrected): for status ≥ 400, a body declared as JSON that
parses to a JSON object yields `response_data` = that object,
`error_message` = its `message` field (or `"Unknown error"` if absent)
and `error_type = "HTTPError"`; a declared-JSON body that fails to
parse yields `error_message = "HTTP <status>"`, `error_type =
"HTTPError"` and `response_data = None`; a body that does not declare
JSON leaves all three `None`, as does any status < 400. -/
theorem classifyResponse_spec (status_code : Int) :
    (status_code < 400 →
        ∀ body : BodyKind, classifyResponse status_code body = (none, none, none))
  ∧ (400 ≤ status_code →
        classifyResponse status_code BodyKind.notJson = (none, none, none)
      ∧ classifyResponse status_code BodyKind.malformed
          = (none, some (.str ("HTTP " ++ toString status_code)), some "HTTPError")
      ∧ (∀ fields : List (String × Json),
          classifyResponse status_code (BodyKind.parsed (.obj fields))
            = (some (.obj fields),
               some ((alookup fields "message").getD (.str "Unknown error")),
               some "HTTPError"))) := by
  constructor
  · intro hlt body
    unfold classifyResponse
    rw [if_neg (by omega)]
  · intro hge
    refine ⟨?_, ?_, ?_⟩
    · unfold classifyResponse
      rw [if_pos hge]
    · unfold classifyResponse
      rw [if_pos hge]
    · intro fields
      unfold classifyResponse
      rw [if_pos hge]
      rfl

/-- Witness for `classifyResponse_spec` at status 404 and status 200:
the hypotheses discharged on concrete inputs, matching the spec's own
examples. -/
theorem classifyResponse_spec_witness :
    classifyResponse 200 BodyKind.notJson = (none, none, none)
    ∧ classifyResponse 404 (BodyKind.parsed (.obj [("message", .str "not found")]))
        = (some (.obj [("message", .str "not found")]),
           some (.str "not found"), some "HTTPError") := by
  constructor
  · exact (classifyResponse_spec 200).1 (by omega) BodyKind.notJson
  · rw [((classifyResponse_spec 404).2 (by omega)).2.2 [("message", Json.str "not found")]]
    rfl

/-! ### C4 -/

/-- C4 (counterexample): a present-but-empty headers map is falsy in
Python, so sanitization yields an absent map, not the (empty) filtered
map the claim's universal statement would require. -/
theorem sanitizeHeaders_empty_map_cex :
    sanitizeHeaders (some ([] : List (String × String))) = none
      ∧ sanitizeHeaders (some ([] : List (String × String)))
          ≠ some (([] : List (String × String)).filter (fun kv =>
              !(["authorization", "cookie", "x-api-key"].contains (pyLower kv.1)))) :=
  ⟨rfl, fun h => Option.noConfusion h⟩

/-- C4 (corrected): for every nonempty headers map the persisted map
contains exactly the entries whose key is not case-insensitively equal
to `authorization`, `cookie` or `x-api-key`, with all other keys and
values preserved; absent input yields absent output.  (A present but
empty input also yields absent output — the correction forced by the
counterexample.) -/
theorem sanitizeHeaders_spec (hs : List (String × String)) (hne : hs ≠ []) :
    sanitizeHeaders (some hs)
        = some (hs.filter (fun kv =>
            !(["authorization", "cookie", "x-api-key"].contains (pyLower kv.1))))
    ∧ (∀ kv : String × String,
        kv ∈ hs.filter (fun kv =>
            !(["authorization", "cookie", "x-api-key"].contains (pyLower kv.1)))
          ↔ kv ∈ hs
            ∧ pyLower kv.1 ∉ (["authorization", "cookie", "x-api-key"] : List String))
    ∧ sanitizeHeaders none = none :=
  ⟨sanitizeHeaders_some hs hne, fun kv => mem_sanitized_filter hs kv, rfl⟩

/-- Witness for `sanitizeHeaders_spec`: the spec's own example, with
the sensitive keys in mixed case. -/
theorem sanitizeHeaders_spec_witness :
    sanitizeHeaders (some [("Authorization", "secret"), ("Cookie", "c"),
        ("X-Api-Key", "k"), ("Content-Type", "application/json")])
      = some [("Content-Type", "application/json")] := by
  rw [(sanitizeHeaders_spec [("Authorization", "secret"), ("Cookie", "c"),
        ("X-Api-Key", "k"), ("Content-Type", "application/json")] (by decide)).1]
  rfl

/-! ### C5 -/

/-- C5 (confirmed): an empty method, an empty endpoint or a zero
status_code makes `log_error` raise a ValidationError and leaves the
store unchanged even through the interceptor's wrapper; with all
required fields present the row is persisted with the method
upper-cased and `request_time` defaulting to the creation time. -/
theorem log_error_required_fields (dbF : Bool) (st : Store) (now : Int)
    (a : LogArgs) :
    ((a.method = "" ∨ a.endpoint = "" ∨ a.status_code = 0) →
        ErrorService.log_error dbF st now a
          = .error (.validation "Method, endpoint, and status_code are required")
        ∧ RequestLoggerMiddleware.log_request_async dbF st now a = st)
  ∧ (a.method ≠ "" → a.endpoint ≠ "" → a.status_code ≠ 0 →
        ErrorService.log_error false st now a
          = .ok ({ records := st.records ++ [ErrorService.logRecord st now a]
                   nextId := st.nextId + 1 }, ErrorService.logRecord st now a)
        ∧ (ErrorService.logRecord st now a).method = pyUpper a.method
        ∧ (ErrorService.logRecord st now a).request_time
            = a.request_time.getD now) := by
  constructor
  · intro h
    have herr : ErrorService.log_error dbF st now a
        = .error (.validation "Method, endpoint, and status_code are required") := by
      unfold ErrorService.log_error
      rw [if_pos h]
    refine ⟨herr, ?_⟩
    unfold RequestLoggerMiddleware.log_request_async
    rw [herr]
  · intro hm he hsc
    exact ⟨log_error_ok st now a hm he hsc, rfl, rfl⟩

/-- Witness for `log_error_required_fields`: a call with empty method
is rejected; a valid call persists `"get"` as `"GET"` and stamps the
missing `request_time` with the creation time 42. -/
theorem log_error_required_fields_witness :
    ErrorService.log_error true { records := [], nextId := 1 } 0
        { LogArgs.base with endpoint := "/api/links", status_code := 200 }
      = .error (.validation "Method, endpoint, and status_code are required")
    ∧ (ErrorService.logRecord { records := [], nextId := 5 } 42
        { LogArgs.base with method := "get", endpoint := "/api/links", status_code := 200 }).method = "GET"
    ∧ (ErrorService.logRecord { records := [], nextId := 5 } 42
        { LogArgs.base with method := "get", endpoint := "/api/links", status_code := 200 }).request_time = 42 := by
  have h2 := (log_error_required_fields false { records := [], nextId := 5 } 42
      { LogArgs.base with method := "get", endpoint := "/api/links", status_code := 200 }).2 (by decide) (by decide) (by decide)
  refine ⟨((log_error_required_fields true { records := [], nextId := 1 } 0
      { LogArgs.base with endpoint := "/api/links", status_code := 200 }).1
      (Or.inl rfl)).1, ?_, ?_⟩
  · rw [h2.2.1]
    rfl
  · rw [h2.2.2]
    rfl

/-! ### C6 -/

/-- C6 (counterexample): a logging call with status_code 999 — outside
100–599 — succeeds and persists a record carrying 999; the write path
enforces no range. -/
theorem log_error_status_range_cex :
    (ErrorService.log_error false { records := [], nextId := 1 } 0
        { LogArgs.base with method := "GET", endpoint := "/api/links", status_code := 999 }).toOption.map (fun p => p.2.status_code)
      = some 999
    ∧ ¬ ((100 : Int) ≤ 999 ∧ (999 : Int) ≤ 599) :=
  ⟨rfl, by decide⟩

/-- C6 (corrected): the write path checks status_code only for Python
truthiness.  Every persisted record carries exactly the status_code of
the call, which is therefore nonzero (and the all-nonzero store
invariant is preserved), and a call with status_code 0 is rejected with
a ValidationError — but nonzero values outside 100–599 are accepted
and persisted (the 100–599 range appears only in the serialization
schema, not on this path). -/
theorem log_error_status_code_spec (dbF : Bool) (st : Store) (now : Int)
    (a : LogArgs) (st2 : Store) (r : ErrorRecord)
    (hok : ErrorService.log_error dbF st now a = .ok (st2, r))
    (hst : ∀ x ∈ st.records, x.status_code ≠ 0) :
    r.status_code = a.status_code ∧ r.status_code ≠ 0
    ∧ (∀ x ∈ st2.records, x.status_code ≠ 0)
    ∧ (a.status_code = 0 →
        ErrorService.log_error dbF st now a
          = .error (.validation "Method, endpoint, and status_code are required")) := by
  unfold ErrorService.log_error at hok
  by_cases hval : a.method = "" ∨ a.endpoint = "" ∨ a.status_code = 0
  · rw [if_pos hval] at hok
    exact absurd hok (by simp)
  · rw [if_neg hval] at hok
    push_neg at hval
    obtain ⟨hm, he, hsc⟩ := hval
    cases dbF with
    | true => exact absurd hok (by simp)
    | false =>
      simp only [Bool.false_eq_true, if_false, Except.ok.injEq, Prod.mk.injEq] at hok
      obtain ⟨hst2, hr⟩ := hok
      subst hr
      subst hst2
      refine ⟨rfl, hsc, ?_, fun h0 => absurd h0 hsc⟩
      intro x hx
      rcases List.mem_append.mp hx with hx | hx
      · exact hst x hx
      · rcases List.mem_singleton.mp hx with rfl
        exact hsc

/-- Witness for `log_error_status_code_spec`: the concrete 999 call,
with the store-invariant hypothesis discharged on the empty store. -/
theorem log_error_status_code_spec_witness :
    (ErrorService.logRecord { records := [], nextId := 1 } 0
        { LogArgs.base with method := "GET", endpoint := "/api/links", status_code := 999 }).status_code = 999
    ∧ (ErrorService.logRecord { records := [], nextId := 1 } 0
        { LogArgs.base with method := "GET", endpoint := "/api/links", status_code := 999 }).status_code ≠ 0 := by
  have h := log_error_status_code_spec false { records := [], nextId := 1 } 0
      { LogArgs.base with method := "GET", endpoint := "/api/links", status_code := 999 }
      { records := [ErrorService.logRecord { records := [], nextId := 1 } 0
          { LogArgs.base with method := "GET", endpoint := "/api/links", status_code := 999 }], nextId := 2 }
      (ErrorService.logRecord { records := [], nextId := 1 } 0
        { LogArgs.base with method := "GET", endpoint := "/api/links", status_code := 999 }) rfl
      (fun x hx => absurd hx (List.not_mem_nil x))
  exact ⟨by rw [h.1], h.2.1⟩

/-! ### C10 -/

/-- C10 (confirmed): a call with an empty headers map persists an
absent `request_headers` and is indistinguishable from a call with no
headers at all; a call whose nonempty headers are all sensitive
persists an empty map, not an absent one. -/
theorem log_error_headers_edge (dbF : Bool) (st : Store) (now : Int)
    (a : LogArgs) :
    ErrorService.log_error dbF st now { a with request_headers := some [] }
      = ErrorService.log_error dbF st now { a with request_headers := none }
  ∧ (∀ hs : List (String × String), hs ≠ [] →
      (∀ kv ∈ hs,
        pyLower kv.1 ∈ (["authorization", "cookie", "x-api-key"] : List String)) →
      (ErrorService.logRecord st now
          { a with request_headers := some hs }).request_headers = some []) := by
  constructor
  · rfl
  · intro hs hne hall
    show sanitizeHeaders (some hs) = some []
    rw [sanitizeHeaders_some hs hne]
    congr 1
    rw [List.filter_eq_nil_iff]
    intro kv hkv
    rcases (by simpa using hall kv hkv :
        pyLower kv.1 = "authorization" ∨ pyLower kv.1 = "cookie"
          ∨ pyLower kv.1 = "x-api-key") with h | h | h <;> simp [h]

/-- Witness for `log_error_headers_edge` on concrete header maps. -/
theorem log_error_headers_edge_witness :
    ErrorService.log_error false { records := [], nextId := 1 } 7
        { LogArgs.base with method := "GET", endpoint := "/api/links", status_code := 200, request_headers := some [] }
      = ErrorService.log_error false { records := [], nextId := 1 } 7
        { LogArgs.base with method := "GET", endpoint := "/api/links", status_code := 200, request_headers := none }
    ∧ (ErrorService.logRecord { records := [], nextId := 1 } 7
        { LogArgs.base with method := "GET", endpoint := "/api/links", status_code := 200, request_headers := some [("Authorization", "secret"), ("COOKIE", "c")] }).request_headers = some [] := by
  constructor
  · exact (log_error_headers_edge false { records := [], nextId := 1 } 7
      { LogArgs.base with method := "GET", endpoint := "/api/links", status_code := 200 }).1
  · exact (log_error_headers_edge false { records := [], nextId := 1 } 7
      { LogArgs.base with method := "GET", endpoint := "/api/links", status_code := 200 }).2
      [("Authorization", "secret"), ("COOKIE", "c")] (by decide) (by decide)

/-! ### C3 -/

/-- Length form of `log_request_async_ok`: a valid write grows the
store by exactly one record. -/
theorem log_request_async_length (st : Store) (now : Int) (a : LogArgs)
    (hm : a.method ≠ "") (he : a.endpoint ≠ "") (hs : a.status_code ≠ 0) :
    (RequestLoggerMiddleware.log_request_async false st now a).records.length
      = st.records.length + 1 := by
  rw [log_request_async_ok st now a hm he hs]
  simp

/-- C3 (counterexample): a request to a skip-listed endpoint
(`"health_check"` contains `"health"`) that aborts with an unhandled
exception still produces one audit record, because
`teardown_appcontext` performs no skip-list check — the claim's "zero
records for skip-listed endpoints" fails on the exception path. -/
theorem lifecycle_skip_exception_cex :
    RequestLoggerMiddleware.should_skip_logging "health_check" = true
    ∧ (requestLifecycle false { records := [], nextId := 1 } 0 5
        { method := "GET"
          endpoint := "health_check"
          body := BodyKind.notJson
          args := []
          headers := []
          remote_addr := none }
        (Outcome.exception { message := "boom", typeName := "RuntimeError" })
      ).records.length = 1 :=
  ⟨rfl, rfl⟩

/-- C3 (corrected): provided the request's own body is not
malformed-declared-JSON (that would abort the logging block and yield
zero records), each lifecycle with a nonempty method and resolved
endpoint produces exactly one record — except that skip-listed
endpoints produce zero on the normal-completion path only; on the
unhandled-exception path one record is produced even for skip-listed
endpoints, since the teardown hook never consults the skip list.  The
normal path also needs a truthy (nonzero) response status, which every
real HTTP response has. -/
theorem requestLifecycle_record_count (st : Store) (t0 t1 : Int)
    (req : RequestCtx) (hm : req.method ≠ "") (he : req.endpoint ≠ "")
    (hb : req.body ≠ BodyKind.malformed) :
    (∀ resp : HttpResponse, resp.status_code ≠ 0 →
        (requestLifecycle false st t0 t1 req (Outcome.normal resp)).records.length
          = st.records.length
            + (if RequestLoggerMiddleware.should_skip_logging req.endpoint
               then 0 else 1))
  ∧ (∀ e : ExcInfo,
        (requestLifecycle false st t0 t1 req (Outcome.exception e)).records.length
          = st.records.length + 1) := by
  have hparse : ∃ rd, req.body.get_json = Except.ok rd := by
    cases hbody : req.body with
    | notJson => exact ⟨none, rfl⟩
    | malformed => exact absurd hbody hb
    | parsed j => exact ⟨pyJsonOpt j, rfl⟩
  constructor
  · intro resp hresp
    show (RequestLoggerMiddleware.teardown_appcontext false
        (RequestLoggerMiddleware.after_request false st t0 t1 req resp).2
        t0 t1 req none).records.length = _
    unfold RequestLoggerMiddleware.teardown_appcontext
    unfold RequestLoggerMiddleware.after_request
    by_cases hskip : RequestLoggerMiddleware.should_skip_logging req.endpoint
    · rw [if_pos hskip, if_pos hskip]
      simp
    · rw [if_neg hskip, if_neg hskip]
      obtain ⟨rd, hrd⟩ : ∃ rd,
          (if (req.method = "POST" ∨ req.method = "PUT" ∨ req.method = "PATCH")
              ∧ req.body.is_json = true
           then req.body.get_json else Except.ok none) = Except.ok rd := by
        by_cases hc : (req.method = "POST" ∨ req.method = "PUT"
            ∨ req.method = "PATCH") ∧ req.body.is_json = true
        · rw [if_pos hc]; exact hparse
        · rw [if_neg hc]; exact ⟨none, rfl⟩
      rw [hrd]
      show (RequestLoggerMiddleware.log_request_async false st t1 _).records.length = _
      rw [log_request_async_length]
      · exact hm
      · exact he
      · exact hresp
  · intro e
    show (RequestLoggerMiddleware.teardown_appcontext false st t0 t1 req
        (some e)).records.length = _
    unfold RequestLoggerMiddleware.teardown_appcontext
    obtain ⟨rd, hrd⟩ : ∃ rd,
        (if req.body.is_json = true then req.body.get_json else Except.ok none)
          = Except.ok rd := by
      by_cases hc : req.body.is_json = true
      · rw [if_pos hc]; exact hparse
      · rw [if_neg hc]; exact ⟨none, rfl⟩
    rw [hrd]
    show (RequestLoggerMiddleware.log_request_async false st t1 _).records.length = _
    rw [log_request_async_length]
    · exact hm
    · exact he
    · exact fun h => absurd h (by norm_num)

/-- Witness for `requestLifecycle_record_count` on a concrete,
non-skip-listed request, on both the normal and the exception path. -/
theorem requestLifecycle_record_count_witness :
    (requestLifecycle false { records := [], nextId := 1 } 0 7
        { method := "GET"
          endpoint := "/api/links"
          body := BodyKind.notJson
          args := []
          headers := []
          remote_addr := none }
        (Outcome.normal { status_code := 200, body := BodyKind.notJson })
      ).records.length = 1
    ∧ (requestLifecycle false { records := [], nextId := 1 } 0 7
        { method := "GET"
          endpoint := "/api/links"
          body := BodyKind.notJson
          args := []
          headers := []
          remote_addr := none }
        (Outcome.exception { message := "boom", typeName := "ValueError" })
      ).records.length = 1 := by
  constructor
  · exact (requestLifecycle_record_count { records := [], nextId := 1 } 0 7
      { method := "GET"
        endpoint := "/api/links"
        body := BodyKind.notJson
        args := []
        headers := []
        remote_addr := none } (by decide) (by decide)
      (fun h => BodyKind.noConfusion h)).1
      { status_code := 200, body := BodyKind.notJson } (by decide)
  · exact (requestLifecycle_record_count { records := [], nextId := 1 } 0 7
      { method := "GET"
        endpoint := "/api/links"
        body := BodyKind.notJson
        args := []
        headers := []
        remote_addr := none } (by decide) (by decide)
      (fun h => BodyKind.noConfusion h)).2
      { message := "boom", typeName := "ValueError" }

/-! ### C9 -/

/-- In a store whose ids are distinct, any record surviving a filter is
found again by its primary key. -/
theorem find_by_id_filter (l : List ErrorRecord) (p : ErrorRecord → Bool)
    (r : ErrorRecord) (hnd : (l.map (fun x => x.id)).Nodup)
    (hr : r ∈ l) (hp : p r = true) :
    (l.filter p).find? (fun x => x.id == r.id) = some r := by
  induction l with
  | nil => cases hr
  | cons a t ih =>
    rw [List.map_cons, List.nodup_cons] at hnd
    obtain ⟨hna, hndt⟩ := hnd
    rcases List.mem_cons.mp hr with rfl | hrt
    · rw [List.filter_cons_of_pos hp, List.find?_cons_of_pos _ (by simp)]
    · have hid : a.id ≠ r.id := fun hEq =>
        hna (hEq ▸ List.mem_map_of_mem (fun x => x.id) hrt)
      by_cases hpa : p a = true
      · rw [List.filter_cons_of_pos hpa,
          List.find?_cons_of_neg _ (by simp [hid])]
        exact ih hndt hrt
      · rw [List.filter_cons_of_neg hpa]
        exact ih hndt hrt

/-- C9 (confirmed): with `days ≥ 1`, cleanup deletes exactly the
records with `request_time` strictly before `now − days`, reports their
count in the success envelope, and every record at or after the cutoff
is still retrievable by id; with `days < 1` the route answers 400 and
the store is untouched. -/
theorem cleanup_retention_spec (st : Store) (now days : Int)
    (hnd : (st.records.map (fun r => r.id)).Nodup) :
    (1 ≤ days →
        (cleanup_old_errors st now days).1
          = CleanupResult.ok
              ((st.records.filter
                  (fun r => decide (r.request_time < now - daysToMs days))).length)
              days
        ∧ (cleanup_old_errors st now days).2.records
            = st.records.filter
                (fun r => !(decide (r.request_time < now - daysToMs days)))
        ∧ (∀ r ∈ st.records, ¬(r.request_time < now - daysToMs days) →
            ErrorService.get_error_by_id (cleanup_old_errors st now days).2 r.id
              = some r))
  ∧ (days < 1 →
        (cleanup_old_errors st now days).1
          = CleanupResult.errorResponse 400 "Days must be at least 1"
        ∧ (cleanup_old_errors st now days).2 = st) := by
  constructor
  · intro hd
    have hnot : ¬ days < 1 := by omega
    unfold cleanup_old_errors
    rw [if_neg hnot]
    refine ⟨rfl, rfl, ?_⟩
    intro r hr hkeep
    show (st.records.filter
        (fun r => !(decide (r.request_time < now - daysToMs days)))).find?
        (fun x => x.id == r.id) = some r
    exact find_by_id_filter st.records _ r hnd hr (by simp [hkeep])
  · intro hd
    unfold cleanup_old_errors
    rw [if_pos hd]
    exact ⟨rfl, rfl⟩

/-- Witness for `cleanup_retention_spec`: the spec's retention example
— a 31-day-old and a 1-day-old record, cleanup at 30 days deletes
exactly the old one and the recent one stays retrievable by id; and a
`days = 0` request is rejected 400 with the store unchanged. -/
theorem cleanup_retention_spec_witness :
    (cleanup_old_errors
        { records := [mkRecord 1 "GET" "/api/old" 200 0 none,
                      mkRecord 2 "GET" "/api/new" 200 2592000000 none]
          nextId := 3 } 2678400000 30).1 = CleanupResult.ok 1 30
    ∧ ErrorService.get_error_by_id
        (cleanup_old_errors
          { records := [mkRecord 1 "GET" "/api/old" 200 0 none,
                        mkRecord 2 "GET" "/api/new" 200 2592000000 none]
            nextId := 3 } 2678400000 30).2 2
      = some (mkRecord 2 "GET" "/api/new" 200 2592000000 none)
    ∧ (cleanup_old_errors
        { records := [mkRecord 1 "GET" "/api/old" 200 0 none,
                      mkRecord 2 "GET" "/api/new" 200 2592000000 none]
          nextId := 3 } 2678400000 0).1
      = CleanupResult.errorResponse 400 "Days must be at least 1" := by
  have h := cleanup_retention_spec
      { records := [mkRecord 1 "GET" "/api/old" 200 0 none,
                    mkRecord 2 "GET" "/api/new" 200 2592000000 none]
        nextId := 3 } 2678400000 30 (by decide)
  have h0 := cleanup_retention_spec
      { records := [mkRecord 1 "GET" "/api/old" 200 0 none,
                    mkRecord 2 "GET" "/api/new" 200 2592000000 none]
        nextId := 3 } 2678400000 0 (by decide)
  refine ⟨(h.1 (by norm_num)).1, ?_, (h0.2 (by norm_num)).1⟩
  exact (h.1 (by norm_num)).2.2 (mkRecord 2 "GET" "/api/new" 200 2592000000 none)
    (List.mem_cons.mpr (Or.inr (List.mem_singleton.mpr rfl))) (by decide)

/-! ### C7 -/

/-- A string filter step is the filter by its predicate form. -/
theorem strFilterStep_eq (v : Option String) (p : String → ErrorRecord → Bool)
    (q : List ErrorRecord) :
    strFilterStep v p q = q.filter (strFilterPred v p) := by
  cases v with
  | none => exact (List.filter_eq_self.mpr (fun a _ => rfl)).symm
  | some s =>
    by_cases hs : s = ""
    · subst hs
      exact (List.filter_eq_self.mpr (fun a _ => rfl)).symm
    · show (if s = "" then q else q.filter (p s))
          = q.filter (fun r => if s = "" then true else p s r)
      rw [if_neg hs]
      exact List.filter_congr (fun a _ => by rw [if_neg hs])

/-- An integer filter step is the filter by its predicate form. -/
theorem intFilterStep_eq (v : Option Int) (p : Int → ErrorRecord → Bool)
    (q : List ErrorRecord) :
    intFilterStep v p q = q.filter (intFilterPred v p) := by
  cases v with
  | none => exact (List.filter_eq_self.mpr (fun a _ => rfl)).symm
  | some n =>
    by_cases hn : n = 0
    · subst hn
      exact (List.filter_eq_self.mpr (fun a _ => rfl)).symm
    · show (if n = 0 then q else q.filter (p n))
          = q.filter (fun r => if n = 0 then true else p n r)
      rw [if_neg hn]
      exact List.filter_congr (fun a _ => by rw [if_neg hn])

/-- A datetime filter step is the filter by its predicate form. -/
theorem dateFilterStep_eq (v : Option Int) (p : Int → ErrorRecord → Bool)
    (q : List ErrorRecord) :
    dateFilterStep v p q = q.filter (dateFilterPred v p) := by
  cases v with
  | none => exact (List.filter_eq_self.mpr (fun a _ => rfl)).symm
  | some d => rfl

/-- The sequential filter chain of `get_errors` equals one filter by
the conjunction of all six predicates. -/
theorem getErrorsQuery_eq_filter (st : Store) (m e : Option String)
    (sc : Option Int) (et : Option String) (sd ed : Option Int) :
    ErrorService.getErrorsQuery st m e sc et sd ed
      = st.records.filter (matchesFilters m e sc et sd ed) := by
  show dateFilterStep ed (fun d r => decide (r.request_time ≤ d))
      (dateFilterStep sd (fun d r => decide (d ≤ r.request_time))
        (strFilterStep et (fun t r => decide (r.error_type = some t))
          (intFilterStep sc (fun c r => decide (r.status_code = c))
            (strFilterStep e (fun e r => strContains r.endpoint e)
              (strFilterStep m (fun m r => decide (r.method = pyUpper m))
                st.records)))))
    = st.records.filter (matchesFilters m e sc et sd ed)
  rw [strFilterStep_eq, strFilterStep_eq, intFilterStep_eq, strFilterStep_eq,
      dateFilterStep_eq, dateFilterStep_eq,
      List.filter_filter, List.filter_filter, List.filter_filter,
      List.filter_filter, List.filter_filter]
  exact List.filter_congr (fun r _ => by
    unfold matchesFilters
    simp [Bool.and_comm, Bool.and_left_comm, Bool.and_assoc])

/-- Ceiling division dominates: `total ≤ ceil(total / k) * k`. -/
theorem le_ceil_mul (total k : Nat) (hk : 1 ≤ k) :
    total ≤ ((total + k - 1) / k) * k := by
  have hdm := Nat.div_add_mod (total + k - 1) k
  have hlt : (total + k - 1) % k < k := Nat.mod_lt _ (by omega)
  rw [Nat.mul_comm]
  generalize hx : k * ((total + k - 1) / k) = x at hdm ⊢
  omega

/-- C7 (counterexample): a supplied `status_code` filter of `0` is
falsy, so the query ignores it and returns a record whose status is
200 — not the empty set of records matching status 0 that the claim
requires. -/
theorem get_errors_status_zero_cex :
    ((ErrorService.get_errors
        { records := [mkRecord 1 "GET" "/api/links" 200 100 none], nextId := 2 }
        1 50 none none (some 0) none none none).errors.map
      (fun r => r.status_code)) = [200]
    ∧ (200 : Int) ≠ 0 := by
  constructor
  · rfl
  · decide

/-- C7 (corrected): for valid pagination arguments the query returns
exactly the records surviving the filter chain — method exact after
upper-case normalization, endpoint by substring, status_code and
error_type exact, request_time within [start, end] — with the caveat
that a falsy filter value (empty string, status_code 0) is treated as
not supplied rather than matched against; results are ordered by
`request_time` descending; a page beyond the last yields an empty
record list with `has_next` false, not an error; and the first page
with room for everything carries the whole filtered set. -/
theorem get_errors_spec (st : Store) (page per_page : Int)
    (m e : Option String) (sc : Option Int) (et : Option String)
    (sd ed : Option Int) (hp : 1 ≤ page) (hpp : 1 ≤ per_page) :
    (ErrorService.get_errors st page per_page m e sc et sd ed).total
        = (st.records.filter (matchesFilters m e sc et sd ed)).length
    ∧ (∀ r ∈ (ErrorService.get_errors st page per_page m e sc et sd ed).errors,
        r ∈ st.records ∧ matchesFilters m e sc et sd ed r = true)
    ∧ List.Pairwise (fun a b => b.request_time ≤ a.request_time)
        (ErrorService.get_errors st page per_page m e sc et sd ed).errors
    ∧ (((ErrorService.get_errors st page per_page m e sc et sd ed).pages : Int)
          < page →
        (ErrorService.get_errors st page per_page m e sc et sd ed).errors = []
        ∧ (ErrorService.get_errors st page per_page m e sc et sd ed).has_next
            = false)
    ∧ (page = 1
        ∧ (ErrorService.get_errors st page per_page m e sc et sd ed).total
            ≤ per_page.toNat →
        (ErrorService.get_errors st page per_page m e sc et sd ed).errors.Perm
          (st.records.filter (matchesFilters m e sc et sd ed))) := by
  have hq := getErrorsQuery_eq_filter st m e sc et sd ed
  have hperm := List.perm_insertionSort byRequestTimeDesc
    (ErrorService.getErrorsQuery st m e sc et sd ed)
  have hsorted := List.sorted_insertionSort byRequestTimeDesc
    (ErrorService.getErrorsQuery st m e sc et sd ed)
  have hpage : (if page < 1 then (1 : Int) else page) = page :=
    if_neg (by omega)
  have hppv : (if per_page < 1 then (20 : Int) else per_page) = per_page :=
    if_neg (by omega)
  unfold ErrorService.get_errors
  rw [hpage, hppv]
  dsimp only
  refine ⟨?_, ?_, ?_, ?_, ?_⟩
  · show (List.insertionSort byRequestTimeDesc
        (ErrorService.getErrorsQuery st m e sc et sd ed)).length = _
    rw [hperm.length_eq, hq]
  · intro r hr
    have h1 : r ∈ List.insertionSort byRequestTimeDesc
        (ErrorService.getErrorsQuery st m e sc et sd ed) :=
      List.mem_of_mem_drop (List.mem_of_mem_take hr)
    have h2 : r ∈ ErrorService.getErrorsQuery st m e sc et sd ed :=
      hperm.mem_iff.mp h1
    rw [hq] at h2
    exact List.mem_filter.mp h2
  · exact List.Pairwise.sublist
      ((List.take_sublist _ _).trans (List.drop_sublist _ _)) hsorted
  · intro hbeyond
    have hk : 1 ≤ per_page.toNat := by omega
    have hpages : ((List.insertionSort byRequestTimeDesc
          (ErrorService.getErrorsQuery st m e sc et sd ed)).length
            + per_page.toNat - 1) / per_page.toNat < page.toNat := by omega
    have hceil := le_ceil_mul (List.insertionSort byRequestTimeDesc
        (ErrorService.getErrorsQuery st m e sc et sd ed)).length
      per_page.toNat hk
    have hidx : ((page - 1) * per_page).toNat
        = (page.toNat - 1) * per_page.toNat := by
      have h1 : page - 1 = ((page.toNat - 1 : Nat) : Int) := by omega
      have h2 : per_page = ((per_page.toNat : Nat) : Int) := by omega
      rw [h1, h2, ← Nat.cast_mul]
      simp only [Int.toNat_natCast]
    have hlen : (List.insertionSort byRequestTimeDesc
          (ErrorService.getErrorsQuery st m e sc et sd ed)).length
        ≤ ((page - 1) * per_page).toNat := by
      rw [hidx]
      calc (List.insertionSort byRequestTimeDesc
            (ErrorService.getErrorsQuery st m e sc et sd ed)).length
          ≤ ((List.insertionSort byRequestTimeDesc
              (ErrorService.getErrorsQuery st m e sc et sd ed)).length
                + per_page.toNat - 1) / per_page.toNat * per_page.toNat :=
            hceil
        _ ≤ (page.toNat - 1) * per_page.toNat :=
            Nat.mul_le_mul_right _ (by omega)
    constructor
    · rw [List.drop_eq_nil_of_le hlen, List.take_nil]
    · exact decide_eq_false (by omega)
  · rintro ⟨hp1, htot⟩
    subst hp1
    have hdrop : (((1 : Int) - 1) * per_page).toNat = 0 := by
      norm_num
    rw [hdrop, List.drop_zero, List.take_of_length_le htot]
    exact hperm.trans (by rw [hq])

/-- Witness for `get_errors_spec`: a two-record store filtered by
`method=get` returns exactly the one GET record; page 2 of that result
is empty with `has_next` false. -/
theorem get_errors_spec_witness :
    (ErrorService.get_errors
        { records := [mkRecord 1 "GET" "/a" 200 100 none,
                      mkRecord 2 "POST" "/b" 500 200 none], nextId := 3 }
        1 50 (some "get") none none none none none).total = 1
    ∧ (ErrorService.get_errors
        { records := [mkRecord 1 "GET" "/a" 200 100 none,
                      mkRecord 2 "POST" "/b" 500 200 none], nextId := 3 }
        2 50 (some "get") none none none none none).errors = []
    ∧ (ErrorService.get_errors
        { records := [mkRecord 1 "GET" "/a" 200 100 none,
                      mkRecord 2 "POST" "/b" 500 200 none], nextId := 3 }
        2 50 (some "get") none none none none none).has_next = false := by
  have h1 := get_errors_spec
      { records := [mkRecord 1 "GET" "/a" 200 100 none,
                    mkRecord 2 "POST" "/b" 500 200 none], nextId := 3 }
      1 50 (some "get") none none none none none (by norm_num) (by norm_num)
  have h2 := get_errors_spec
      { records := [mkRecord 1 "GET" "/a" 200 100 none,
                    mkRecord 2 "POST" "/b" 500 200 none], nextId := 3 }
      2 50 (some "get") none none none none none (by norm_num) (by norm_num)
  have hb := h2.2.2.2.1 (by decide)
  exact ⟨h1.1.trans (by decide), hb.1, hb.2⟩

/-! ### C8 -/

/-- Looking up a key in an association list built by pairing each key
with a function of it yields that function value. -/
theorem alookup_map_key {κ β : Type} [DecidableEq κ] (ks : List κ)
    (f : κ → β) (k : κ) (hk : k ∈ ks) :
    alookup (ks.map (fun x => (x, f x))) k = some (f k) := by
  induction ks with
  | nil => cases hk
  | cons a t ih =>
    by_cases ha : a = k
    · subst ha
      simp [alookup]
    · rcases List.mem_cons.mp hk with rfl | hkt
      · exact absurd rfl ha
      · simp only [List.map_cons, alookup, if_neg ha]
        exact ih hkt

/-- Looking up a key that occurs in the grouped list yields its group
count. -/
theorem alookup_groupCounts {κ : Type} [DecidableEq κ]
    (key : ErrorRecord → κ) (l : List ErrorRecord) (k : κ)
    (hk : k ∈ l.map key) :
    alookup (groupCounts key l) k
      = some ((l.filter (fun r => decide (key r = k))).length) := by
  unfold groupCounts
  exact alookup_map_key _ _ k (List.mem_dedup.mpr hk)

/-- When every record has a duration, `filterMap` keeps the length. -/
theorem filterMap_duration_length (l : List ErrorRecord)
    (h : ∀ r ∈ l, (r.duration_ms).isSome = true) :
    (l.filterMap (fun r => r.duration_ms)).length = l.length := by
  induction l with
  | nil => rfl
  | cons a t ih =>
    obtain ⟨d, hd⟩ := Option.isSome_iff_exists.mp (h a (List.mem_cons_self a t))
    simp [List.filterMap_cons, hd,
      ih (fun r hr => h r (List.mem_cons_of_mem a hr))]

/-- C8 (confirmed): over the optional time-filtered subset, statistics
reports the record count as `total_requests`; `status_code_counts`
pairs each stringified occurring status code with its count (and
contains nothing else); `method_counts` looks up each occurring method
to its count; `top_endpoints` holds at most 10 entries and every
excluded endpoint group has a count no larger than any included one;
and the average duration is the exact mean of the durations when every
matching record carries one, and 0 when there are no matching
records. -/
theorem get_error_statistics_spec (st : Store) (sd ed : Option Int) :
    (ErrorService.get_error_statistics st sd ed).total_requests
        = (timeFilteredRecords st sd ed).length
    ∧ (∀ c : Int,
        c ∈ (timeFilteredRecords st sd ed).map (fun r => r.status_code) →
        (toString c,
          ((timeFilteredRecords st sd ed).filter
            (fun r => decide (r.status_code = c))).length)
          ∈ (ErrorService.get_error_statistics st sd ed).status_code_counts)
    ∧ (∀ p ∈ (ErrorService.get_error_statistics st sd ed).status_code_counts,
        ∃ c : Int,
          c ∈ (timeFilteredRecords st sd ed).map (fun r => r.status_code)
          ∧ p = (toString c,
              ((timeFilteredRecords st sd ed).filter
                (fun r => decide (r.status_code = c))).length))
    ∧ (∀ mth : String,
        mth ∈ (timeFilteredRecords st sd ed).map (fun r => r.method) →
        alookup (ErrorService.get_error_statistics st sd ed).method_counts mth
          = some (((timeFilteredRecords st sd ed).filter
              (fun r => decide (r.method = mth))).length))
    ∧ (ErrorService.get_error_statistics st sd ed).top_endpoints.length ≤ 10
    ∧ (∀ p ∈ (ErrorService.get_error_statistics st sd ed).top_endpoints,
        ∀ p2 ∈ groupCounts (fun r => r.endpoint) (timeFilteredRecords st sd ed),
          p2 ∉ (ErrorService.get_error_statistics st sd ed).top_endpoints →
          p2.2 ≤ p.2)
    ∧ (timeFilteredRecords st sd ed = [] →
        (ErrorService.get_error_statistics st sd ed).average_response_time_ms
          = 0)
    ∧ ((∀ r ∈ timeFilteredRecords st sd ed, (r.duration_ms).isSome = true) →
        timeFilteredRecords st sd ed ≠ [] →
        (ErrorService.get_error_statistics st sd ed).average_response_time_ms
          = (((((timeFilteredRecords st sd ed).filterMap
              (fun r => r.duration_ms)).sum : Int)) : Rat)
            / (((timeFilteredRecords st sd ed).length : Nat) : Rat)) := by
  unfold ErrorService.get_error_statistics
  dsimp only
  refine ⟨rfl, ?_, ?_, ?_, ?_, ?_, ?_, ?_⟩
  · intro c hc
    have h1 : (c, ((timeFilteredRecords st sd ed).filter
        (fun r => decide (r.status_code = c))).length)
        ∈ groupCounts (fun r => r.status_code) (timeFilteredRecords st sd ed) := by
      unfold groupCounts
      exact List.mem_map_of_mem
        (fun k => (k, ((timeFilteredRecords st sd ed).filter
          (fun r => decide (r.status_code = k))).length))
        (List.mem_dedup.mpr hc)
    exact List.mem_map_of_mem (fun p : Int × Nat => (toString p.1, p.2)) h1
  · intro p hp
    obtain ⟨p', hp', hps⟩ := List.mem_map.mp hp
    obtain ⟨c, hc, hcs⟩ := List.mem_map.mp hp'
    subst hcs
    subst hps
    exact ⟨c, List.mem_dedup.mp hc, rfl⟩
  · intro mth hm
    exact alookup_groupCounts _ _ mth hm
  · exact List.length_take_le 10 _
  · intro p hp p2 hp2 hnot
    have hperm := List.perm_insertionSort byCountDesc
      (groupCounts (fun r => r.endpoint) (timeFilteredRecords st sd ed))
    have hsorted := List.sorted_insertionSort byCountDesc
      (groupCounts (fun r => r.endpoint) (timeFilteredRecords st sd ed))
    have hp2s : p2 ∈ List.insertionSort byCountDesc
        (groupCounts (fun r => r.endpoint) (timeFilteredRecords st sd ed)) :=
      hperm.mem_iff.mpr hp2
    have hsplit := List.take_append_drop 10 (List.insertionSort byCountDesc
      (groupCounts (fun r => r.endpoint) (timeFilteredRecords st sd ed)))
    have hpair := (List.pairwise_append.mp (by rw [hsplit]; exact hsorted)).2.2
    rw [← hsplit] at hp2s
    rcases List.mem_append.mp hp2s with h | h
    · exact absurd h hnot
    · exact hpair p hp p2 h
  · intro hnil
    rw [hnil]
    rfl
  · intro hall hne
    have hlen := filterMap_duration_length _ hall
    have hne0 : ((timeFilteredRecords st sd ed).filterMap
        (fun r => r.duration_ms)).length ≠ 0 := by
      rw [hlen]
      intro h0
      exact hne (List.length_eq_zero.mp h0)
    rw [if_neg hne0, hlen]

/-- Witness for `get_error_statistics_spec`: the spec's statistics
example — statuses {200, 400, 200, 500} give `total_requests = 4`,
`status_code_counts["200"] = 2`, `method_counts["GET"] = 2`, and the
mean of durations {10, 20, 30, 40} is 25; the empty store averages
0. -/
theorem get_error_statistics_spec_witness :
    (ErrorService.get_error_statistics
        { records := [mkRecord 1 "GET" "/a" 200 100 (some 10),
                      mkRecord 2 "POST" "/b" 400 200 (some 20),
                      mkRecord 3 "GET" "/a" 200 300 (some 30),
                      mkRecord 4 "DELETE" "/c" 500 400 (some 40)]
          nextId := 5 } none none).total_requests = 4
    ∧ ("200", 2) ∈ (ErrorService.get_error_statistics
        { records := [mkRecord 1 "GET" "/a" 200 100 (some 10),
                      mkRecord 2 "POST" "/b" 400 200 (some 20),
                      mkRecord 3 "GET" "/a" 200 300 (some 30),
                      mkRecord 4 "DELETE" "/c" 500 400 (some 40)]
          nextId := 5 } none none).status_code_counts
    ∧ alookup (ErrorService.get_error_statistics
        { records := [mkRecord 1 "GET" "/a" 200 100 (some 10),
                      mkRecord 2 "POST" "/b" 400 200 (some 20),
                      mkRecord 3 "GET" "/a" 200 300 (some 30),
                      mkRecord 4 "DELETE" "/c" 500 400 (some 40)]
          nextId := 5 } none none).method_counts "GET" = some 2
    ∧ (ErrorService.get_error_statistics
        { records := [mkRecord 1 "GET" "/a" 200 100 (some 10),
                      mkRecord 2 "POST" "/b" 400 200 (some 20),
                      mkRecord 3 "GET" "/a" 200 300 (some 30),
                      mkRecord 4 "DELETE" "/c" 500 400 (some 40)]
          nextId := 5 } none none).average_response_time_ms = 25
    ∧ (ErrorService.get_error_statistics
        { records := [], nextId := 1 } none none).average_response_time_ms
      = 0 := by
  have h := get_error_statistics_spec
      { records := [mkRecord 1 "GET" "/a" 200 100 (some 10),
                    mkRecord 2 "POST" "/b" 400 200 (some 20),
                    mkRecord 3 "GET" "/a" 200 300 (some 30),
                    mkRecord 4 "DELETE" "/c" 500 400 (some 40)]
        nextId := 5 } none none
  have hne : timeFilteredRecords
      { records := [mkRecord 1 "GET" "/a" 200 100 (some 10),
                    mkRecord 2 "POST" "/b" 400 200 (some 20),
                    mkRecord 3 "GET" "/a" 200 300 (some 30),
                    mkRecord 4 "DELETE" "/c" 500 400 (some 40)]
        nextId := 5 } none none ≠ [] := by
    intro h0
    have h4 : (timeFilteredRecords
        { records := [mkRecord 1 "GET" "/a" 200 100 (some 10),
                      mkRecord 2 "POST" "/b" 400 200 (some 20),
                      mkRecord 3 "GET" "/a" 200 300 (some 30),
                      mkRecord 4 "DELETE" "/c" 500 400 (some 40)]
          nextId := 5 } none none).length = 4 := rfl
    rw [h0] at h4
    exact absurd h4 (by decide)
  refine ⟨h.1.trans (by decide), h.2.1 200 (by decide),
    (h.2.2.2.1 "GET" (by decide)).trans (by decide), ?_, ?_⟩
  · have havg := h.2.2.2.2.2.2.2 (by decide) hne
    rw [havg]
    have hsum : ((timeFilteredRecords
        { records := [mkRecord 1 "GET" "/a" 200 100 (some 10),
                      mkRecord 2 "POST" "/b" 400 200 (some 20),
                      mkRecord 3 "GET" "/a" 200 300 (some 30),
                      mkRecord 4 "DELETE" "/c" 500 400 (some 40)]
          nextId := 5 } none none).filterMap
        (fun r => r.duration_ms)).sum = (100 : Int) := rfl
    have hlen4 : (timeFilteredRecords
        { records := [mkRecord 1 "GET" "/a" 200 100 (some 10),
                      mkRecord 2 "POST" "/b" 400 200 (some 20),
                      mkRecord 3 "GET" "/a" 200 300 (some 30),
                      mkRecord 4 "DELETE" "/c" 500 400 (some 40)]
          nextId := 5 } none none).length = 4 := rfl
    rw [hsum, hlen4]
    norm_num
  · exact (get_error_statistics_spec
      { records := [], nextId := 1 } none none).2.2.2.2.2.2.1 rfl
